import Mathlib

/-
Verification of the Invoice & Collection Reconciliation Engine
(src/src-tauri/src/commands.rs, models.rs, database.rs).

Monetary amounts (SQLite REAL / Rust f64) are modelled as rationals;
SQL NULL-able columns as Option; row ids (UUIDs) as opaque strings.
-/

/-- Invoice status enum, from models.rs (InvoiceStatus). -/
inductive InvoiceStatus
  | pending
  | sending
  | sent
  | failed
  deriving DecidableEq, Repr

/-- From models.rs, `impl From<String> for InvoiceStatus`: the four known
strings map to their variants, anything else to Pending. -/
def InvoiceStatus.fromString (s : String) : InvoiceStatus :=
  match s with
  | "pending" => .pending
  | "sending" => .sending
  | "sent" => .sent
  | "failed" => .failed
  | _ => .pending

/-- Collection status values written by commands.rs
(status strings pending / sending / synced / failed). -/
inductive CollectionStatus
  | pending
  | sending
  | synced
  | failed
  deriving DecidableEq, Repr

/-- A row of the collections table (database.rs migration 11),
restricted to the columns the reconciliation logic reads. -/
structure CollectionRow where
  id : String
  receiptGroupId : Option String
  receiptSeries : Option String
  receiptNumber : Option String
  idPartener : String
  numarFactura : Option String
  serieFactura : Option String
  codDocument : Option String
  valoare : ℚ
  status : CollectionStatus
  deriving DecidableEq, Repr

/-- A row of the client_balances table (the locally cached remote
balance snapshot), restricted to the columns the balance query reads. -/
structure BalanceRow where
  idPartener : String
  serie : Option String
  numar : Option String
  codDocument : Option String
  valoare : Option ℚ
  rest : Option ℚ
  deriving DecidableEq, Repr

/-- A row of the invoices table, restricted to the columns the
reconciliation logic reads. -/
structure InvoiceRow where
  id : String
  invoiceNumber : Int
  partnerId : String
  status : InvoiceStatus
  totalAmount : ℚ
  deriving DecidableEq, Repr

/-- An invoice_items row joined with its product, as read by the balance
query: total_price together with CAST(products.procent_tva AS REAL)
(NULL when the product has no VAT percentage stored). -/
structure ItemRow where
  totalPrice : ℚ
  procentTva : Option ℚ
  deriving DecidableEq, Repr

/-- Whitespace trim (Rust str::trim / SQL TRIM), written with structural
recursion so that concrete instances evaluate. -/
def trimString (s : String) : String :=
  String.mk (((s.data.dropWhile Char.isWhitespace).reverse.dropWhile Char.isWhitespace).reverse)

/-- status IN ('pending', 'sending', 'synced') filter used by every
collected-total subquery in commands.rs. -/
def inFlight (st : CollectionStatus) : Bool :=
  match st with
  | .pending => true
  | .sending => true
  | .synced => true
  | .failed => false

/-- Collected total for one remote balance line, from get_client_balances
(commands.rs lines 3940-3955): sum of valoare over collections in
pending/sending/synced whose partner, COALESCEd serie, numar and
cod_document all match the balance line key. -/
def collectedForRemote (cols : List CollectionRow) (p s n c : String) : ℚ :=
  ((cols.filter (fun r =>
      inFlight r.status && r.idPartener == p
        && (r.serieFactura.getD "") == s
        && (r.numarFactura.getD "") == n
        && (r.codDocument.getD "") == c)).map (fun r => r.valoare)).sum

/-- Effective rest of a remote balance line, from get_client_balances
(commands.rs lines 3932-3936): CASE WHEN rest - collected > 0 THEN
rest - collected ELSE 0 END, with COALESCE(rest, 0). -/
def remoteEffectiveRest (cb : BalanceRow) (cols : List CollectionRow) : ℚ :=
  let collected := collectedForRemote cols cb.idPartener
      (cb.serie.getD "") (cb.numar.getD "") (cb.codDocument.getD "")
  let diff := cb.rest.getD 0 - collected
  if 0 < diff then diff else 0

/-- Collected total keyed by invoice number, from get_client_balances
lines 4010-4023 and get_invoice_remaining_for_collection lines 4444-4452:
collections in pending/sending/synced whose partner matches and whose
COALESCEd numar_factura and cod_document both equal the invoice number. -/
def collectedForInvoiceNumber (cols : List CollectionRow) (p numStr : String) : ℚ :=
  ((cols.filter (fun r =>
      inFlight r.status && r.idPartener == p
        && (r.numarFactura.getD "") == numStr
        && (r.codDocument.getD "") == numStr)).map (fun r => r.valoare)).sum

/-- Gross (VAT-inclusive) total of an invoice, from the balance query
(commands.rs lines 3970-3975): SUM(total_price * (1 + COALESCE(tva, 0) / 100)). -/
def grossTotal (items : List ItemRow) : ℚ :=
  (items.map (fun it => it.totalPrice * (1 + (it.procentTva.getD 0) / 100))).sum

/-- Synthesized provisional rest for a local invoice with no remote line,
from get_client_balances lines 3976-3990: gross total minus collected,
reported only while the difference exceeds 0.01, else 0. -/
def synthRest (inv : InvoiceRow) (items : List ItemRow) (cols : List CollectionRow) : ℚ :=
  let g := grossTotal items
  let collected := collectedForInvoiceNumber cols inv.partnerId (toString inv.invoiceNumber)
  if g - collected > 1/100 then g - collected else 0

/-- NOT EXISTS subquery of the synthesized branch (lines 4025-4030): a
client_balances row for the same partner whose COALESCEd numar equals the
invoice number. -/
def hasRemoteLine (cbs : List BalanceRow) (inv : InvoiceRow) : Bool :=
  cbs.any (fun cb =>
    cb.idPartener == inv.partnerId
      && (cb.numar.getD "") == toString inv.invoiceNumber)

/-- Status filter of the synthesized branch (line 4024):
i.status IN ('pending', 'sending', 'sent', 'failed'). -/
def synthStatusListed (st : InvoiceStatus) : Bool :=
  match st with
  | .pending => true
  | .sending => true
  | .sent => true
  | .failed => true

/-- A row of the get_client_balances result (the fields the collection
ledger consumes). -/
structure BalanceOut where
  idPartener : String
  serie : Option String
  numar : Option String
  codDocument : Option String
  valoare : Option ℚ
  rest : ℚ
  deriving DecidableEq, Repr

/-- Remote branch of the balance query UNION (lines 3929-3955). -/
def remoteOut (cb : BalanceRow) (cols : List CollectionRow) : BalanceOut :=
  { idPartener := cb.idPartener
    serie := cb.serie
    numar := cb.numar
    codDocument := cb.codDocument
    valoare := cb.valoare
    rest := remoteEffectiveRest cb cols }

/-- Synthesized branch of the balance query UNION (lines 3959-4030);
serie is COALESCE(agent_settings.carnet_series, 'FACTURA'). -/
def synthOut (inv : InvoiceRow) (items : List ItemRow) (cols : List CollectionRow)
    (carnetSeries : Option String) : BalanceOut :=
  { idPartener := inv.partnerId
    serie := some (carnetSeries.getD "FACTURA")
    numar := some (toString inv.invoiceNumber)
    codDocument := some (toString inv.invoiceNumber)
    valoare := some (grossTotal items)
    rest := synthRest inv items cols }

/-- get_client_balances (commands.rs lines 3914-4076): remote lines with
effective rest, plus synthesized lines for local invoices with no remote
line, keeping only rows with positive rest, optionally filtered by
TRIM-equal partner id. The ORDER BY due date is omitted: all verified
properties are order independent. -/
def get_client_balances (carnetSeries : Option String) (cbs : List BalanceRow)
    (invs : List (InvoiceRow × List ItemRow)) (cols : List CollectionRow)
    (partnerFilter : Option String) : List BalanceOut :=
  let remoteRows := cbs.map (fun cb => remoteOut cb cols)
  let synthRows :=
    (invs.filter (fun p => synthStatusListed p.1.status && !(hasRemoteLine cbs p.1))).map
      (fun p => synthOut p.1 p.2 cols carnetSeries)
  let positive := (remoteRows ++ synthRows).filter (fun r => 0 < r.rest)
  match partnerFilter with
  | some pid => positive.filter (fun r => trimString r.idPartener == trimString pid)
  | none => positive

/-- get_invoice_remaining_for_collection (commands.rs lines 4423-4455):
the invoice NET total_amount minus the collected total, clamped to 0 by
f64::max. -/
def get_invoice_remaining_for_collection (inv : InvoiceRow) (cols : List CollectionRow) : ℚ :=
  max (inv.totalAmount -
    collectedForInvoiceNumber cols inv.partnerId (toString inv.invoiceNumber)) 0

/-- normalize_opt_key (commands.rs lines 46-51): trim, defaulting to "". -/
def normalizeOptKey (v : Option String) : String :=
  (v.map (fun s => trimString s)).getD ""

/-- build_invoice_key (commands.rs lines 53-61): the four key parts joined
by a vertical bar, partner trimmed and options normalized. -/
def build_invoice_key (idPartener : String) (serie numar codDoc : Option String) : String :=
  trimString idPartener ++ "|" ++ normalizeOptKey serie ++ "|"
    ++ normalizeOptKey numar ++ "|" ++ normalizeOptKey codDoc

/-- The remaining_map of record_collection_group (lines 4160-4170): the
partner-filtered balance query keyed by build_invoice_key, value rest. -/
def remainingMapOf (carnetSeries : Option String) (cbs : List BalanceRow)
    (invs : List (InvoiceRow × List ItemRow)) (cols : List CollectionRow)
    (pid : String) : List (String × ℚ) :=
  (get_client_balances carnetSeries cbs invs cols (some pid)).map
    (fun b => (build_invoice_key b.idPartener b.serie b.numar b.codDocument, b.rest))

/-- HashMap insertion order semantics: the last insert for a key wins. -/
def mapLookup (m : List (String × ℚ)) (k : String) : Option ℚ :=
  ((m.filter (fun e => e.1 == k)).getLast?).map (fun e => e.2)

/-- Structured form of the rejection paths of record_collection_group. -/
inductive GroupError
  | invalidPartner
  | emptyAllocations
  | nonPositiveAmount
  | noBalance (serie numar : String)
  | exceedsRemaining (remaining : ℚ) (serie numar : String)
  | inProgress (serie numar : String)
  deriving DecidableEq, Repr

/-- One allocation of a CreateCollectionGroupRequest. -/
structure AllocationRequest where
  serieFactura : Option String
  numarFactura : Option String
  codDocument : Option String
  valoare : ℚ
  deriving DecidableEq, Repr

/-- Validation loop of record_collection_group (lines 4172-4203), in
request order: non-positive amount, missing balance, then the epsilon
check valoare - remaining > 0.0001. -/
def validateAllocations (m : List (String × ℚ)) (pid : String) :
    List AllocationRequest → Option GroupError
  | [] => none
  | a :: rest =>
    if a.valoare ≤ 0 then some .nonPositiveAmount
    else
      match mapLookup m (build_invoice_key pid a.serieFactura a.numarFactura a.codDocument) with
      | none => some (.noBalance (a.serieFactura.getD "") (a.numarFactura.getD ""))
      | some remaining =>
        if a.valoare - remaining > 1/10000 then
          some (.exceedsRemaining remaining (a.serieFactura.getD "") (a.numarFactura.getD ""))
        else validateAllocations m pid rest

/-- SQL equality on a nullable column against a nullable parameter:
NULL compares unequal to everything, including NULL. -/
def sqlEq (x y : Option String) : Bool :=
  match x, y with
  | some a, some b => a == b
  | _, _ => false

/-- In-progress check inside the insert transaction (lines 4229-4254):
an existing pending or sending collection with SQL-equal key columns. -/
def hasInProgress (store : List CollectionRow) (pid : String) (a : AllocationRequest) : Bool :=
  store.any (fun c =>
    c.idPartener == pid
      && sqlEq c.serieFactura a.serieFactura
      && sqlEq c.numarFactura a.numarFactura
      && sqlEq c.codDocument a.codDocument
      && (c.status == .pending || c.status == .sending))

/-- The collections row inserted per allocation (lines 4256-4281); fresh
UUIDs are modelled by an explicit id supply. -/
def mkGroupRow (pid rgid series number rowId : String) (a : AllocationRequest) : CollectionRow :=
  { id := rowId
    receiptGroupId := some rgid
    receiptSeries := some series
    receiptNumber := some number
    idPartener := pid
    numarFactura := a.numarFactura
    serieFactura := a.serieFactura
    codDocument := a.codDocument
    valoare := a.valoare
    status := .pending }

/-- Result of record_collection_group: success carries the group id. -/
inductive GroupResult
  | ok (receiptGroupId : String)
  | err (e : GroupError)
  deriving DecidableEq, Repr

/-- The collections store after the call together with its result; on any
rejection the transaction rolls back, so the store is the original one. -/
structure GroupOutcome where
  store : List CollectionRow
  result : GroupResult
  deriving DecidableEq, Repr

/-- Insert transaction body (lines 4225-4284): per allocation, reject the
batch when an in-progress collection matches (the check also sees rows
inserted earlier in the same transaction), else insert the row. -/
def insertAllocations (pid rgid series number : String) (idOf : Nat → String)
    (store : List CollectionRow) (k : Nat) :
    List AllocationRequest → GroupResult × List CollectionRow
  | [] => (.ok rgid, store)
  | a :: rest =>
    if hasInProgress store pid a then
      (.err (.inProgress (a.serieFactura.getD "") (a.numarFactura.getD "")), store)
    else
      insertAllocations pid rgid series number idOf
        (store ++ [mkGroupRow pid rgid series number (idOf k) a]) (k + 1) rest

/-- record_collection_group (commands.rs lines 4146-4287): trim and check
the partner, reject empty batches, build the remaining map from the
balance query, validate every allocation, then run the insert transaction
(rolling back on failure). The receipt series and number, the group id
and the row ids are parameters: generate_receipt_number is modelled
separately and UUIDs are opaque. -/
def record_collection_group (carnetSeries : Option String) (cbs : List BalanceRow)
    (invs : List (InvoiceRow × List ItemRow)) (cols : List CollectionRow)
    (idPartenerReq : String) (allocs : List AllocationRequest)
    (receiptSeries receiptNumber rgid : String) (idOf : Nat → String) : GroupOutcome :=
  let pid := trimString idPartenerReq
  if pid == "" then { store := cols, result := .err .invalidPartner }
  else if allocs.isEmpty then { store := cols, result := .err .emptyAllocations }
  else
    match validateAllocations (remainingMapOf carnetSeries cbs invs cols pid) pid allocs with
    | some e => { store := cols, result := .err e }
    | none =>
      match insertAllocations pid rgid receiptSeries receiptNumber idOf cols 0 allocs with
      | (.ok g, newStore) => { store := newStore, result := .ok g }
      | (.err e, _) => { store := cols, result := .err e }

/-- A balance line of the pre-submission remote pull (api_client SoldInfo);
rest is the value of api_client::parse_f64 on the wire string. -/
structure SoldInfo where
  numar : Option String
  rest : ℚ
  deriving DecidableEq, Repr

/-- Outcome of the pre-submission balance pull get_solduri_clienti. -/
inductive CheckOutcome
  | ok (solds : List SoldInfo)
  | err (msg : String)
  deriving DecidableEq, Repr

/-- Outcome of the remote receipt submission send_collections_to_wme:
accepted (result ok or empty error list), rejected (API error list), or a
transport error. -/
inductive SubmitResult
  | accepted
  | rejected
  | netError
  deriving DecidableEq, Repr

/-- Total amount of a receipt group (commands.rs line 4651). -/
def groupTotal (rows : List CollectionRow) : ℚ :=
  (rows.map (fun r => r.valoare)).sum

/-- Invoice numbers referenced by a receipt group (lines 4817-4819). -/
def groupInvoiceNumbers (rows : List CollectionRow) : List String :=
  rows.filterMap (fun r => r.numarFactura)

/-- found_unpaid_amount (lines 4823-4835): sum of rest over pulled balance
lines whose trimmed numar is one of the group invoice numbers and whose
rest exceeds 0.01. -/
def foundUnpaidAmount (rows : List CollectionRow) (solds : List SoldInfo) : ℚ :=
  ((solds.filter (fun s =>
      (groupInvoiceNumbers rows).contains (trimString (s.numar.getD ""))
        && decide ((1 : ℚ)/100 < s.rest))).map (fun s => s.rest)).sum

/-- The conditional begin-send update of send_collection (line 4737):
rows not already sending or synced are set to sending. -/
def beginSendRows (rows : List CollectionRow) : List CollectionRow :=
  rows.map (fun r =>
    if r.status != .sending && r.status != .synced then { r with status := .sending } else r)

/-- Number of rows the begin-send update affects. -/
def beginSendAffected (rows : List CollectionRow) : Nat :=
  (rows.filter (fun r => r.status != .sending && r.status != .synced)).length

/-- Group-wide unconditional status update (lines 4864-4868, 4891-4918). -/
def setStatusAll (rows : List CollectionRow) (st : CollectionStatus) : List CollectionRow :=
  rows.map (fun r => { r with status := st })

/-- Final state of a send_collection call: whether the remote submission
was issued and the stored rows of the group. -/
structure SendOutcome where
  remoteCallIssued : Bool
  rows : List CollectionRow
  deriving DecidableEq, Repr

/-- Result of send_collection. -/
inductive SendResult
  | ok (out : SendOutcome)
  | err (msg : String)
  deriving DecidableEq, Repr

/-- send_collection (commands.rs lines 4570-4936) as a step on the rows
of one receipt group, parameterized by the outcome of the pre-submission
balance pull and of the remote submission. Missing group: error. If the
conditional begin-send update affects no row (all rows already sending or
synced), return without any remote interaction. Otherwise run the
duplicate guard: when the pull succeeded, the group references at least
one invoice number, and the pulled unpaid total is below the group total
minus 0.5, mark every row synced and skip the submission; when the pull
failed, proceed. A submission marks the whole group synced, failed, or
back to pending on a transport error. -/
def send_collection (rows : List CollectionRow) (check : CheckOutcome)
    (submit : SubmitResult) : SendResult :=
  if rows.isEmpty then .err "Chitanta nu a fost gasita"
  else if beginSendAffected rows = 0 then
    .ok { remoteCallIssued := false, rows := rows }
  else
    let rows1 := beginSendRows rows
    let alreadyPaid :=
      match check with
      | .ok solds =>
        !(groupInvoiceNumbers rows).isEmpty
          && decide (foundUnpaidAmount rows solds < groupTotal rows - 1/2)
      | .err _ => false
    if alreadyPaid then
      .ok { remoteCallIssued := false, rows := setStatusAll rows1 .synced }
    else
      let finalRows :=
        match submit with
        | .accepted => setStatusAll rows1 .synced
        | .rejected => setStatusAll rows1 .failed
        | .netError => setStatusAll rows1 .pending
      .ok { remoteCallIssued := true, rows := finalRows }

/-- The invoice numbering columns of the single agent_settings row. -/
structure AgentNumberRow where
  invoiceNumberCurrent : Option Int
  invoiceNumberEnd : Option Int
  deriving DecidableEq, Repr

/-- Numbering-relevant state of create_invoice: the optional settings row
and the invoice numbers already present (invoices.invoice_number UNIQUE). -/
structure InvoiceNumberState where
  settingsRow : Option AgentNumberRow
  usedNumbers : List Int
  deriving DecidableEq, Repr

/-- Failure cases of the numbering portion of create_invoice. -/
inductive CreateError
  | rangeExhausted (current endNumber : Int)
  | uniqueViolation (number : Int)
  deriving DecidableEq, Repr

/-- Result of create_invoice: the assigned invoice number on success. -/
inductive CreateResult
  | ok (number : Int)
  | err (e : CreateError)
  deriving DecidableEq, Repr

/-- State after a create_invoice call together with its result. -/
structure CreateOutcome where
  state : InvoiceNumberState
  result : CreateResult
  deriving DecidableEq, Repr

/-- COALESCE(invoice_number_current, 1) of commands.rs line 1562, with
the unwrap_or fallback 1 when the settings row is absent. -/
def effectiveCurrent (st : InvoiceNumberState) : Int :=
  match st.settingsRow with
  | some row => row.invoiceNumberCurrent.getD 1
  | none => 1

/-- COALESCE(invoice_number_end, 99999) of commands.rs line 1562, with
the unwrap_or fallback 99999 when the settings row is absent. -/
def effectiveEnd (st : InvoiceNumberState) : Int :=
  match st.settingsRow with
  | some row => row.invoiceNumberEnd.getD 99999
  | none => 99999

/-- Numbering portion of create_invoice (commands.rs lines 1559-1594):
read the COALESCEd current and end, fail when current exceeds end (before
any insert), insert the invoice with the pre-increment number (the UNIQUE
constraint on invoice_number can reject it), then upsert the counter:
with no settings row, insert a row whose counter is number + 1; with an
existing row, ON CONFLICT sets counter = counter + 1, which in SQLite
leaves a NULL counter NULL. -/
def create_invoice (st : InvoiceNumberState) : CreateOutcome :=
  let cur := effectiveCurrent st
  let endN := effectiveEnd st
  if cur > endN then { state := st, result := .err (.rangeExhausted cur endN) }
  else if st.usedNumbers.contains cur then
    { state := st, result := .err (.uniqueViolation cur) }
  else
    let settingsRowNew :=
      match st.settingsRow with
      | some row => { row with invoiceNumberCurrent := row.invoiceNumberCurrent.map (fun v => v + 1) }
      | none => { invoiceNumberCurrent := some (cur + 1), invoiceNumberEnd := none }
    { state := { settingsRow := some settingsRowNew, usedNumbers := st.usedNumbers ++ [cur] }
      result := .ok cur }

/-- Caller-visible result of generate_receipt_number. -/
inductive ReceiptResult
  | ok (number : String)
  | limitReached (limit : Int)
  deriving DecidableEq, Repr

/-- Result of generate_receipt_number with the persisted counter value
after the call. Only result is returned to the caller. -/
structure ReceiptNumberOutcome where
  result : ReceiptResult
  newCurrent : Option Int
  deriving DecidableEq, Repr

/-- generate_receipt_number (commands.rs lines 78-103): with a configured
counter, fail past the optional end limit, else persist current + 1 and
return the pre-increment value as a string; with no configured counter,
return the current local timestamp string as an ordinary success and
leave the counter untouched. -/
def generate_receipt_number (current endLimit : Option Int) (nowStamp : String) :
    ReceiptNumberOutcome :=
  match current with
  | some val =>
    match endLimit with
    | some limit =>
      if val > limit then { result := .limitReached limit, newCurrent := some val }
      else { result := .ok (toString val), newCurrent := some (val + 1) }
    | none => { result := .ok (toString val), newCurrent := some (val + 1) }
  | none => { result := .ok nowStamp, newCurrent := none }

/-- The status update of send_invoice after validation (commands.rs lines
1956-1964): UPDATE invoices SET status = sending WHERE id = the target id,
with no condition on the current status. -/
def send_invoice_mark_sending (invs : List InvoiceRow) (invoiceId : String) : List InvoiceRow :=
  invs.map (fun i => if i.id == invoiceId then { i with status := .sending } else i)

/-- An invoice_items row as touched by delete_invoice. -/
structure InvoiceItemRow where
  id : String
  invoiceId : String
  deriving DecidableEq, Repr

/-- delete_invoice (commands.rs lines 2454-2471): DELETE the items of the
invoice, then DELETE the invoice row, with no condition on its status. -/
def delete_invoice (invs : List InvoiceRow) (items : List InvoiceItemRow)
    (invoiceId : String) : List InvoiceRow × List InvoiceItemRow :=
  (invs.filter (fun i => i.id != invoiceId),
   items.filter (fun it => it.invoiceId != invoiceId))

/-- Clamp helper: the CASE WHEN positive THEN diff ELSE 0 pattern equals
max diff 0. -/
theorem ifPos_eq_max (d : ℚ) : (if 0 < d then d else 0) = max d 0 := by
  rcases lt_or_le 0 d with h | h
  · simp [h, max_eq_left h.le]
  · simp [not_lt.mpr h, max_eq_right h]

/-- C10: InvoiceStatus::from (models.rs lines 121-131) is total and
defaults to Pending: the four known strings map to their variants and any
other string maps to Pending. -/
theorem invoiceStatus_fromString_total_default :
    (∀ s : String, s ≠ "pending" → s ≠ "sending" → s ≠ "sent" → s ≠ "failed" →
        InvoiceStatus.fromString s = .pending)
    ∧ InvoiceStatus.fromString "pending" = .pending
    ∧ InvoiceStatus.fromString "sending" = .sending
    ∧ InvoiceStatus.fromString "sent" = .sent
    ∧ InvoiceStatus.fromString "failed" = .failed := by
  refine ⟨?_, rfl, rfl, rfl, rfl⟩
  intro s h1 h2 h3 h4
  unfold InvoiceStatus.fromString
  split <;> simp_all

/-- Witness for C10: a corrupted status string is read back as Pending. -/
theorem invoiceStatus_fromString_total_default_witness :
    ("corrupted" ≠ "pending") ∧ InvoiceStatus.fromString "corrupted" = .pending :=
  ⟨by decide,
   invoiceStatus_fromString_total_default.1 "corrupted"
     (by decide) (by decide) (by decide) (by decide)⟩

/-- C1: for a remote balance line, the effective rest reported by the
balance query is the remote rest minus the in-flight collected total for
that exact invoice key, clamped to zero, hence never negative; every row
the query reports has a nonnegative rest; and remote rest 100 with one
pending collection of 40 yields 60 (Scenario B). -/
theorem effective_balance_clamped_nonneg :
    (∀ (cb : BalanceRow) (cols : List CollectionRow),
        remoteEffectiveRest cb cols
          = max (cb.rest.getD 0 - collectedForRemote cols cb.idPartener
              (cb.serie.getD "") (cb.numar.getD "") (cb.codDocument.getD "")) 0
        ∧ 0 ≤ remoteEffectiveRest cb cols)
    ∧ (∀ (carnet : Option String) (cbs : List BalanceRow)
        (invs : List (InvoiceRow × List ItemRow)) (cols : List CollectionRow)
        (pf : Option String) (r : BalanceOut),
        r ∈ get_client_balances carnet cbs invs cols pf → 0 ≤ r.rest)
    ∧ remoteEffectiveRest
        { idPartener := "P1", serie := some "FV", numar := some "100",
          codDocument := some "X", valoare := some 100, rest := some 100 }
        [{ id := "c1", receiptGroupId := some "g1", receiptSeries := none,
           receiptNumber := none, idPartener := "P1", numarFactura := some "100",
           serieFactura := some "FV", codDocument := some "X", valoare := 40,
           status := .pending }] = 60 := by
  refine ⟨?_, ?_, by norm_num [remoteEffectiveRest, collectedForRemote, inFlight]⟩
  · intro cb cols
    have h := ifPos_eq_max (cb.rest.getD 0 - collectedForRemote cols cb.idPartener
        (cb.serie.getD "") (cb.numar.getD "") (cb.codDocument.getD ""))
    unfold remoteEffectiveRest
    exact ⟨h, h ▸ le_max_right _ _⟩
  · intro carnet cbs invs cols pf r hr
    unfold get_client_balances at hr
    rcases pf with _ | pid
    · simp only [List.mem_filter, decide_eq_true_eq] at hr
      exact hr.2.le
    · simp only [List.mem_filter, decide_eq_true_eq] at hr
      exact hr.1.2.le

/-- Witness for C1: the Scenario B row is reported and its rest is
nonnegative. -/
theorem effective_balance_clamped_nonneg_witness :
    (0 : ℚ) ≤ ({ idPartener := "P1", serie := some "FV", numar := some "100",
                 codDocument := some "X", valoare := some 100, rest := 60 } : BalanceOut).rest :=
  effective_balance_clamped_nonneg.2.1 none
    [{ idPartener := "P1", serie := some "FV", numar := some "100",
       codDocument := some "X", valoare := some 100, rest := some 100 }]
    []
    [{ id := "c1", receiptGroupId := some "g1", receiptSeries := none,
       receiptNumber := none, idPartener := "P1", numarFactura := some "100",
       serieFactura := some "FV", codDocument := some "X", valoare := 40,
       status := .pending }]
    none _
    (by norm_num [get_client_balances, remoteOut, remoteEffectiveRest,
          collectedForRemote, inFlight])

/-- Counterexample for C4: send_invoice moves an invoice whose status is
the terminal Sent state to Sending, because its status update carries no
condition on the current status. -/
theorem send_invoice_sent_moved_counterexample :
    send_invoice_mark_sending
        [{ id := "I1", invoiceNumber := 7, partnerId := "P1",
           status := .sent, totalAmount := 100 }] "I1"
      = [{ id := "I1", invoiceNumber := 7, partnerId := "P1",
           status := .sending, totalAmount := 100 }] := rfl

/-- C4 (amended): the begin-send step of send_invoice is an unconditional
status write, not a Pending-only compare-and-swap: every invoice row with
the target id is set to Sending whatever its current status (including
Sent), and rows with other ids are unchanged. -/
theorem send_invoice_mark_sending_unconditional :
    (∀ (invs : List InvoiceRow) (invoiceId : String) (i : InvoiceRow),
        i ∈ invs → i.id = invoiceId →
        ({ i with status := .sending } : InvoiceRow) ∈ send_invoice_mark_sending invs invoiceId)
    ∧ (∀ (invs : List InvoiceRow) (invoiceId : String) (j : InvoiceRow),
        j ∈ invs → j.id ≠ invoiceId → j ∈ send_invoice_mark_sending invs invoiceId) := by
  constructor
  · intro invs invoiceId i hmem hid
    have h : (if i.id == invoiceId then ({ i with status := .sending } : InvoiceRow) else i)
        = { i with status := .sending } := by simp [hid]
    exact h ▸ List.mem_map_of_mem _ hmem
  · intro invs invoiceId j hmem hid
    have h : (if j.id == invoiceId then ({ j with status := .sending } : InvoiceRow) else j)
        = j := by simp [hid]
    exact h ▸ List.mem_map_of_mem _ hmem

/-- Witness for C4 (amended), at a concrete Sent invoice. -/
theorem send_invoice_mark_sending_unconditional_witness :
    (({ id := "I9", invoiceNumber := 9, partnerId := "P1",
        status := .sent, totalAmount := 50 } : InvoiceRow)
      ∈ [({ id := "I9", invoiceNumber := 9, partnerId := "P1",
            status := .sent, totalAmount := 50 } : InvoiceRow)])
    ∧ ({ id := "I9", invoiceNumber := 9, partnerId := "P1",
         status := .sending, totalAmount := 50 } : InvoiceRow)
        ∈ send_invoice_mark_sending
            [{ id := "I9", invoiceNumber := 9, partnerId := "P1",
               status := .sent, totalAmount := 50 }] "I9" :=
  ⟨List.mem_singleton_self _,
   send_invoice_mark_sending_unconditional.1
     [{ id := "I9", invoiceNumber := 9, partnerId := "P1",
        status := .sent, totalAmount := 50 }] "I9"
     { id := "I9", invoiceNumber := 9, partnerId := "P1",
       status := .sent, totalAmount := 50 }
     (List.mem_singleton_self _) rfl⟩

/-- Counterexample for C8: delete_invoice physically removes a Sent
invoice row and its items. -/
theorem delete_invoice_sent_counterexample :
    delete_invoice
        [{ id := "I1", invoiceNumber := 7, partnerId := "P1",
           status := .sent, totalAmount := 100 }]
        [{ id := "it1", invoiceId := "I1" }] "I1"
      = ([], []) := rfl

/-- C8 (amended): delete_invoice removes the invoice row and all its item
rows unconditionally, regardless of status — no row with the target id
survives (a Sent invoice does not remain in the store) — while rows of
other invoices are untouched. -/
theorem delete_invoice_unconditional :
    (∀ (invs : List InvoiceRow) (items : List InvoiceItemRow) (invoiceId : String)
        (j : InvoiceRow), j ∈ (delete_invoice invs items invoiceId).1 → j.id ≠ invoiceId)
    ∧ (∀ (invs : List InvoiceRow) (items : List InvoiceItemRow) (invoiceId : String)
        (j : InvoiceRow), j ∈ invs → j.id ≠ invoiceId →
          j ∈ (delete_invoice invs items invoiceId).1)
    ∧ (∀ (invs : List InvoiceRow) (items : List InvoiceItemRow) (invoiceId : String)
        (it : InvoiceItemRow), it ∈ (delete_invoice invs items invoiceId).2 →
          it.invoiceId ≠ invoiceId) := by
  refine ⟨?_, ?_, ?_⟩
  · intro invs items invoiceId j hj
    unfold delete_invoice at hj
    have := (List.mem_filter.mp hj).2
    simpa [bne_iff_ne] using this
  · intro invs items invoiceId j hj hne
    unfold delete_invoice
    exact List.mem_filter.mpr ⟨hj, by simp [bne_iff_ne, hne]⟩
  · intro invs items invoiceId it hit
    unfold delete_invoice at hit
    have := (List.mem_filter.mp hit).2
    simpa [bne_iff_ne] using this

/-- Witness for C8 (amended): deleting one invoice leaves another intact. -/
theorem delete_invoice_unconditional_witness :
    (({ id := "I1", invoiceNumber := 1, partnerId := "P1",
        status := .pending, totalAmount := 10 } : InvoiceRow)
      ∈ [({ id := "I1", invoiceNumber := 1, partnerId := "P1",
            status := .pending, totalAmount := 10 } : InvoiceRow),
         { id := "I2", invoiceNumber := 2, partnerId := "P1",
           status := .sent, totalAmount := 20 }])
    ∧ ({ id := "I1", invoiceNumber := 1, partnerId := "P1",
         status := .pending, totalAmount := 10 } : InvoiceRow)
        ∈ (delete_invoice
            [{ id := "I1", invoiceNumber := 1, partnerId := "P1",
               status := .pending, totalAmount := 10 },
             { id := "I2", invoiceNumber := 2, partnerId := "P1",
               status := .sent, totalAmount := 20 }] [] "I2").1 :=
  ⟨List.mem_cons_self _ _,
   delete_invoice_unconditional.2.1
     [{ id := "I1", invoiceNumber := 1, partnerId := "P1",
        status := .pending, totalAmount := 10 },
      { id := "I2", invoiceNumber := 2, partnerId := "P1",
        status := .sent, totalAmount := 20 }] [] "I2"
     { id := "I1", invoiceNumber := 1, partnerId := "P1",
       status := .pending, totalAmount := 10 }
     (List.mem_cons_self _ _) (by decide)⟩

/-- Counterexample for C9: with the receipt counter unconfigured,
generate_receipt_number returns the timestamp-derived number as an
ordinary success — byte for byte the same caller-visible result a
configured counter at that value would produce — and raises no distinct
flag, leaving the counter unconfigured. -/
theorem generate_receipt_number_silent_fallback_counterexample :
    (generate_receipt_number none (some 99999) "20260101120000").result
        = .ok "20260101120000"
    ∧ (generate_receipt_number (some 20260101120000) none "x").result
        = .ok "20260101120000"
    ∧ (generate_receipt_number none (some 99999) "20260101120000").newCurrent = none :=
  ⟨rfl, rfl, rfl⟩


/-- C9 (amended): when the receipt counter is unconfigured,
generate_receipt_number silently returns an ordinary success carrying the
timestamp-derived string and leaves the counter unconfigured, with no
distinct flag for the caller; when configured it returns the
pre-increment value and persists value + 1, or the end-limit error once
current exceeds the configured end. -/
theorem generate_receipt_number_behaviour :
    (∀ (endLimit : Option Int) (nowStamp : String),
        generate_receipt_number none endLimit nowStamp
          = ReceiptNumberOutcome.mk (.ok nowStamp) none)
    ∧ (∀ (val limit : Int) (nowStamp : String), val ≤ limit →
        generate_receipt_number (some val) (some limit) nowStamp
          = ReceiptNumberOutcome.mk (.ok (toString val)) (some (val + 1)))
    ∧ (∀ (val : Int) (nowStamp : String),
        generate_receipt_number (some val) none nowStamp
          = ReceiptNumberOutcome.mk (.ok (toString val)) (some (val + 1)))
    ∧ (∀ (val limit : Int) (nowStamp : String), val > limit →
        generate_receipt_number (some val) (some limit) nowStamp
          = ReceiptNumberOutcome.mk (.limitReached limit) (some val)) := by
  refine ⟨?_, ?_, ?_, ?_⟩
  · intro endLimit nowStamp
    cases endLimit <;> rfl
  · intro val limit nowStamp h
    show (if val > limit then ReceiptNumberOutcome.mk (.limitReached limit) (some val)
        else ReceiptNumberOutcome.mk (.ok (toString val)) (some (val + 1))) = _
    rw [if_neg (not_lt.mpr h)]
  · intro val nowStamp
    rfl
  · intro val limit nowStamp h
    show (if val > limit then ReceiptNumberOutcome.mk (.limitReached limit) (some val)
        else ReceiptNumberOutcome.mk (.ok (toString val)) (some (val + 1))) = _
    rw [if_pos h]

/-- Witness for C9 (amended): a configured counter below its limit. -/
theorem generate_receipt_number_behaviour_witness :
    ((5 : Int) ≤ 99)
    ∧ generate_receipt_number (some 5) (some 99) "ts"
        = ReceiptNumberOutcome.mk (.ok "5") (some 6) :=
  ⟨by decide, generate_receipt_number_behaviour.2.1 5 99 "ts" (by decide)⟩

/-- Counterexample for C5: with an agent_settings row whose invoice
counter column is NULL, create_invoice succeeds assigning number 1, but
the persisted counter stays NULL (SQLite NULL + 1 = NULL) instead of
becoming 2, and the next create attempts number 1 again and fails on the
UNIQUE constraint instead of assigning the next number. -/
theorem create_invoice_null_counter_counterexample :
    (create_invoice (InvoiceNumberState.mk (some (AgentNumberRow.mk none none)) [])).result
        = .ok 1
    ∧ (create_invoice (InvoiceNumberState.mk (some (AgentNumberRow.mk none none)) [])).state.settingsRow
        = some (AgentNumberRow.mk none none)
    ∧ (create_invoice (create_invoice
          (InvoiceNumberState.mk (some (AgentNumberRow.mk none none)) [])).state).result
        = .err (.uniqueViolation 1) :=
  ⟨rfl, rfl, rfl⟩

/-- Helper: create_invoice on a configured counter within range and a
fresh number assigns the counter value and advances it by one. -/
theorem create_invoice_configured (c e : Int) (used : List Int)
    (hle : c ≤ e) (hmem : c ∉ used) :
    create_invoice (InvoiceNumberState.mk (some (AgentNumberRow.mk (some c) (some e))) used)
      = CreateOutcome.mk
          (InvoiceNumberState.mk (some (AgentNumberRow.mk (some (c + 1)) (some e))) (used ++ [c]))
          (.ok c) := by
  unfold create_invoice effectiveCurrent effectiveEnd
  simp only [Option.getD_some]
  rw [if_neg (not_lt.mpr hle)]
  rw [if_neg (by simpa [List.contains_iff_exists_mem_beq, beq_iff_eq] using hmem)]
  rfl

/-- C5 (amended): create_invoice fails before inserting anything when the
COALESCEd current counter exceeds the COALESCEd end; otherwise it assigns
the pre-increment value. The persisted counter becomes value + 1 when the
settings row has a configured counter, and a fresh row with counter 2 is
created when no settings row exists — in the configured case two
successive successful creates assign the gap-free strictly increasing
numbers c then c + 1 — but a settings row whose counter column is NULL
keeps a NULL counter after a successful create (see the counterexample). -/
theorem create_invoice_numbering :
    (∀ st : InvoiceNumberState, effectiveCurrent st > effectiveEnd st →
        create_invoice st = CreateOutcome.mk st
          (.err (.rangeExhausted (effectiveCurrent st) (effectiveEnd st))))
    ∧ (∀ (c e : Int) (used : List Int), c ≤ e → c ∉ used →
        create_invoice (InvoiceNumberState.mk (some (AgentNumberRow.mk (some c) (some e))) used)
          = CreateOutcome.mk
              (InvoiceNumberState.mk
                (some (AgentNumberRow.mk (some (c + 1)) (some e))) (used ++ [c]))
              (.ok c))
    ∧ (∀ used : List Int, (1 : Int) ∉ used →
        create_invoice (InvoiceNumberState.mk none used)
          = CreateOutcome.mk
              (InvoiceNumberState.mk (some (AgentNumberRow.mk (some 2) none)) (used ++ [1]))
              (.ok 1))
    ∧ (∀ (c e : Int) (used : List Int), c + 1 ≤ e → c ∉ used → c + 1 ∉ used →
        (create_invoice (InvoiceNumberState.mk
            (some (AgentNumberRow.mk (some c) (some e))) used)).result = .ok c
        ∧ (create_invoice (create_invoice (InvoiceNumberState.mk
            (some (AgentNumberRow.mk (some c) (some e))) used)).state).result
            = .ok (c + 1)) := by
  refine ⟨?_, ?_, ?_, ?_⟩
  · intro st h
    unfold create_invoice
    rw [if_pos h]
  · intro c e used hle hmem
    exact create_invoice_configured c e used hle hmem
  · intro used hmem
    have hc : (used.contains (1 : Int)) = false := by
      simpa [List.contains_iff_exists_mem_beq, beq_iff_eq] using hmem
    simp [create_invoice, effectiveCurrent, effectiveEnd, hc]
    exact hmem
  · intro c e used hle hmem hmem1
    rw [create_invoice_configured c e used (by omega) hmem]
    refine ⟨rfl, ?_⟩
    rw [create_invoice_configured (c + 1) e (used ++ [c]) hle ?_]
    simp only [List.mem_append, List.mem_singleton]
    rintro (h | h)
    · exact hmem1 h
    · omega

/-- Witness for C5 (amended): a configured counter at 10 with end 20. -/
theorem create_invoice_numbering_witness :
    ((10 : Int) ≤ 20 ∧ (10 : Int) ∉ ([] : List Int))
    ∧ create_invoice (InvoiceNumberState.mk (some (AgentNumberRow.mk (some 10) (some 20))) [])
      = CreateOutcome.mk
          (InvoiceNumberState.mk (some (AgentNumberRow.mk (some 11) (some 20))) [10])
          (.ok 10) :=
  ⟨⟨by decide, by decide⟩,
   create_invoice_numbering.2.1 10 20 [] (by decide) (by decide)⟩

/-- Counterexample for C6, inside the original claim's hypothesis: a
Pending (not yet Sent) local invoice with one item of 100 at 19% VAT and
no remote balance line. The balance query synthesizes the gross remaining
119, but the per-invoice helper get_invoice_remaining_for_collection — a
code path that reports the remaining amount for collection recording —
returns the NET stored total 100: not every such code path synthesizes
the remaining from the gross total. -/
theorem balance_paths_gross_vs_net_counterexample :
    (InvoiceRow.mk "I1" 10 "P1" .pending 100).status ≠ .sent
    ∧ hasRemoteLine [] (InvoiceRow.mk "I1" 10 "P1" .pending 100) = false
    ∧ ((get_client_balances none []
        [(InvoiceRow.mk "I1" 10 "P1" .pending 100, [ItemRow.mk 100 (some 19)])]
        [] none).map (fun r => r.rest)) = [119]
    ∧ get_invoice_remaining_for_collection (InvoiceRow.mk "I1" 10 "P1" .pending 100) [] = 100
    ∧ ((119 : ℚ) ≠ 100) := by
  refine ⟨by decide, rfl, ?_, ?_, by norm_num⟩
  · norm_num [get_client_balances, synthOut, synthRest, grossTotal,
      collectedForInvoiceNumber, hasRemoteLine, synthStatusListed, remoteOut]
  · norm_num [get_invoice_remaining_for_collection, collectedForInvoiceNumber]

/-- C6 (amended): for an invoice reference with no remote balance line,
the balance query synthesizes a provisional line from the gross
(VAT-inclusive) total — per-item total price times one plus that item's
own tax rate, summed — minus in-flight collections, for every local
invoice regardless of its status (the status filter admits all four
statuses, Sent included); the per-invoice remaining helper
get_invoice_remaining_for_collection instead reports the stored NET
total_amount minus in-flight collections, clamped to zero. -/
theorem balance_synthesis_and_net_helper :
    (∀ st : InvoiceStatus, synthStatusListed st = true)
    ∧ (∀ (carnet : Option String) (cbs : List BalanceRow)
        (invs : List (InvoiceRow × List ItemRow)) (cols : List CollectionRow)
        (inv : InvoiceRow) (items : List ItemRow),
        (inv, items) ∈ invs → hasRemoteLine cbs inv = false →
        0 < synthRest inv items cols →
        synthOut inv items cols carnet ∈ get_client_balances carnet cbs invs cols none)
    ∧ (∀ (inv : InvoiceRow) (cols : List CollectionRow),
        get_invoice_remaining_for_collection inv cols
          = max (inv.totalAmount
              - collectedForInvoiceNumber cols inv.partnerId (toString inv.invoiceNumber)) 0
        ∧ 0 ≤ get_invoice_remaining_for_collection inv cols) := by
  refine ⟨?_, ?_, ?_⟩
  · intro st
    cases st <;> rfl
  · intro carnet cbs invs cols inv items hmem hnr hpos
    unfold get_client_balances
    refine List.mem_filter.mpr ⟨?_, ?_⟩
    · refine List.mem_append.mpr (Or.inr ?_)
      refine List.mem_map.mpr ⟨(inv, items), ?_, rfl⟩
      refine List.mem_filter.mpr ⟨hmem, ?_⟩
      have hl : synthStatusListed inv.status = true := by cases inv.status <;> rfl
      simp [hl, hnr]
    · simpa [synthOut] using hpos
  · intro inv cols
    exact ⟨rfl, le_max_right _ _⟩

/-- Witness for C6 (amended): a pending local invoice with no remote line
is synthesized into the balance report. -/
theorem balance_synthesis_and_net_helper_witness :
    ((InvoiceRow.mk "I2" 11 "P2" .pending 50, [ItemRow.mk 50 none])
        ∈ [(InvoiceRow.mk "I2" 11 "P2" .pending 50, [ItemRow.mk 50 none])])
    ∧ hasRemoteLine [] (InvoiceRow.mk "I2" 11 "P2" .pending 50) = false
    ∧ 0 < synthRest (InvoiceRow.mk "I2" 11 "P2" .pending 50) [ItemRow.mk 50 none] []
    ∧ synthOut (InvoiceRow.mk "I2" 11 "P2" .pending 50) [ItemRow.mk 50 none] [] none
        ∈ get_client_balances none []
            [(InvoiceRow.mk "I2" 11 "P2" .pending 50, [ItemRow.mk 50 none])] [] none :=
  ⟨List.mem_singleton_self _, rfl,
   by norm_num [synthRest, grossTotal, collectedForInvoiceNumber],
   balance_synthesis_and_net_helper.2.1 none []
     [(InvoiceRow.mk "I2" 11 "P2" .pending 50, [ItemRow.mk 50 none])] []
     (InvoiceRow.mk "I2" 11 "P2" .pending 50) [ItemRow.mk 50 none]
     (List.mem_singleton_self _) rfl
     (by norm_num [synthRest, grossTotal, collectedForInvoiceNumber])⟩

/-- Helper: a group-wide status update sets every row to that status. -/
theorem setStatusAll_status (rows : List CollectionRow) (st : CollectionStatus) :
    ∀ r ∈ setStatusAll rows st, r.status = st := by
  intro r hr
  unfold setStatusAll at hr
  rcases List.mem_map.mp hr with ⟨r0, _, rfl⟩
  rfl

/-- Helper: a nonempty list is not isEmpty. -/
theorem isEmpty_false_of_ne_nil {α : Type} {l : List α} (h : l ≠ []) :
    l.isEmpty = false := by
  cases l with
  | nil => exact absurd rfl h
  | cons a t => rfl

/-- C7: invoking send_collection on a group whose rows are all already
synced or sending is a no-op: the conditional begin-send update affects
no row, the call returns before the remote gateway is touched, and every
stored row keeps its status. -/
theorem send_collection_noop_on_settled_group :
    ∀ (rows : List CollectionRow) (check : CheckOutcome) (submit : SubmitResult),
      rows ≠ [] →
      (∀ r ∈ rows, r.status = .synced ∨ r.status = .sending) →
      send_collection rows check submit = .ok (SendOutcome.mk false rows) := by
  intro rows check submit hne hall
  have he := isEmpty_false_of_ne_nil hne
  have haff : beginSendAffected rows = 0 := by
    unfold beginSendAffected
    rw [List.length_eq_zero, List.filter_eq_nil_iff]
    intro r hr
    rcases hall r hr with h | h <;> simp [h]
  simp [send_collection, he, haff]

/-- Witness for C7: a one-row group already synced. -/
theorem send_collection_noop_on_settled_group_witness :
    ([CollectionRow.mk "c1" (some "g1") (some "CH") (some "7") "P1"
        (some "100") (some "FV") (some "X") 40 .synced] ≠ ([] : List CollectionRow))
    ∧ send_collection
        [CollectionRow.mk "c1" (some "g1") (some "CH") (some "7") "P1"
          (some "100") (some "FV") (some "X") 40 .synced]
        (.ok []) .accepted
      = .ok (SendOutcome.mk false
          [CollectionRow.mk "c1" (some "g1") (some "CH") (some "7") "P1"
            (some "100") (some "FV") (some "X") 40 .synced]) :=
  ⟨by simp,
   send_collection_noop_on_settled_group
     [CollectionRow.mk "c1" (some "g1") (some "CH") (some "7") "P1"
       (some "100") (some "FV") (some "X") 40 .synced]
     (.ok []) .accepted (by simp)
     (by intro r hr
         simp only [List.mem_singleton] at hr
         subst hr
         exact Or.inl rfl)⟩

/-- C2: for a group actually being submitted (nonempty, with at least one
row to move to sending, referencing at least one invoice number), when
the pre-submission balance pull succeeds and the pulled unpaid total
across the referenced invoices is below the group total minus the 0.5
rounding epsilon, send_collection marks every row of the group synced and
does not issue the remote submission; when the balance pull itself fails,
the submission is issued anyway. -/
theorem send_collection_duplicate_guard :
    ∀ (rows : List CollectionRow) (submit : SubmitResult),
      rows ≠ [] →
      (∃ r ∈ rows, r.status ≠ .sending ∧ r.status ≠ .synced) →
      ((∀ solds : List SoldInfo,
          groupInvoiceNumbers rows ≠ [] →
          foundUnpaidAmount rows solds < groupTotal rows - 1/2 →
          send_collection rows (.ok solds) submit
              = .ok (SendOutcome.mk false (setStatusAll (beginSendRows rows) .synced))
            ∧ ∀ r ∈ setStatusAll (beginSendRows rows) .synced, r.status = .synced)
        ∧ (∀ msg : String, ∃ out : SendOutcome,
            send_collection rows (.err msg) submit = .ok out
              ∧ out.remoteCallIssued = true)) := by
  intro rows submit hne hsome
  have he := isEmpty_false_of_ne_nil hne
  have haff : ¬ beginSendAffected rows = 0 := by
    rcases hsome with ⟨r, hr, h1, h2⟩
    have hmem : r ∈ rows.filter (fun r => r.status != .sending && r.status != .synced) :=
      List.mem_filter.mpr ⟨hr, by simp [h1, h2]⟩
    intro hlen
    unfold beginSendAffected at hlen
    rw [List.length_eq_zero] at hlen
    rw [hlen] at hmem
    exact absurd hmem (List.not_mem_nil r)
  constructor
  · intro solds hnums hlt
    have hgn := isEmpty_false_of_ne_nil hnums
    refine ⟨?_, setStatusAll_status _ _⟩
    simp [send_collection, he, haff, hgn]
    linarith
  · intro msg
    cases submit with
    | accepted =>
      exact ⟨SendOutcome.mk true (setStatusAll (beginSendRows rows) .synced),
        by simp [send_collection, he, haff], rfl⟩
    | rejected =>
      exact ⟨SendOutcome.mk true (setStatusAll (beginSendRows rows) .failed),
        by simp [send_collection, he, haff], rfl⟩
    | netError =>
      exact ⟨SendOutcome.mk true (setStatusAll (beginSendRows rows) .pending),
        by simp [send_collection, he, haff], rfl⟩

/-- Witness for C2: Scenario E — one pending collection of 40 for invoice
100, the fresh pull shows nothing unpaid, so the group is marked synced
without a remote call. -/
theorem send_collection_duplicate_guard_witness :
    foundUnpaidAmount
        [CollectionRow.mk "c1" (some "g1") (some "CH") (some "7") "P1"
          (some "100") (some "FV") (some "X") 40 .pending] []
      < groupTotal
          [CollectionRow.mk "c1" (some "g1") (some "CH") (some "7") "P1"
            (some "100") (some "FV") (some "X") 40 .pending] - 1/2
    ∧ send_collection
        [CollectionRow.mk "c1" (some "g1") (some "CH") (some "7") "P1"
          (some "100") (some "FV") (some "X") 40 .pending]
        (.ok []) .accepted
      = .ok (SendOutcome.mk false
          (setStatusAll (beginSendRows
            [CollectionRow.mk "c1" (some "g1") (some "CH") (some "7") "P1"
              (some "100") (some "FV") (some "X") 40 .pending]) .synced)) :=
  ⟨by norm_num [foundUnpaidAmount, groupTotal, groupInvoiceNumbers],
   ((send_collection_duplicate_guard
      [CollectionRow.mk "c1" (some "g1") (some "CH") (some "7") "P1"
        (some "100") (some "FV") (some "X") 40 .pending]
      .accepted (by simp)
      ⟨CollectionRow.mk "c1" (some "g1") (some "CH") (some "7") "P1"
        (some "100") (some "FV") (some "X") 40 .pending,
       List.mem_singleton_self _, by simp, by simp⟩).1 []
      (by simp [groupInvoiceNumbers])
      (by norm_num [foundUnpaidAmount, groupTotal, groupInvoiceNumbers])).1⟩

/-- Helper: under positive amounts and a fully-resolved remaining map,
the validation loop rejects a batch containing any over-allocation with
the exceeds-remaining error of the first offending allocation. -/
theorem validateAllocations_exceeds (m : List (String × ℚ)) (pid : String)
    (allocs : List AllocationRequest)
    (hpos : ∀ a ∈ allocs, 0 < a.valoare)
    (hkey : ∀ a ∈ allocs, ∃ r, mapLookup m
        (build_invoice_key pid a.serieFactura a.numarFactura a.codDocument) = some r)
    (hex : ∃ a ∈ allocs, ∃ r, mapLookup m
        (build_invoice_key pid a.serieFactura a.numarFactura a.codDocument) = some r
        ∧ a.valoare - r > 1/10000) :
    ∃ a ∈ allocs, ∃ r, mapLookup m
        (build_invoice_key pid a.serieFactura a.numarFactura a.codDocument) = some r
      ∧ a.valoare - r > 1/10000
      ∧ validateAllocations m pid allocs
          = some (.exceedsRemaining r (a.serieFactura.getD "") (a.numarFactura.getD "")) := by
  induction allocs with
  | nil =>
    rcases hex with ⟨a, ha, _⟩
    exact absurd ha (List.not_mem_nil a)
  | cons a rest ih =>
    have hpa : 0 < a.valoare := hpos a (List.mem_cons_self a rest)
    obtain ⟨ra, hra⟩ := hkey a (List.mem_cons_self a rest)
    by_cases hxa : a.valoare - ra > 1/10000
    · refine ⟨a, List.mem_cons_self a rest, ra, hra, hxa, ?_⟩
      simp only [validateAllocations, if_neg (not_le.mpr hpa), hra, if_pos hxa]
    · have hex2 : ∃ b ∈ rest, ∃ r, mapLookup m
          (build_invoice_key pid b.serieFactura b.numarFactura b.codDocument) = some r
          ∧ b.valoare - r > 1/10000 := by
        rcases hex with ⟨b, hb, rb, hrb, hxb⟩
        rcases List.mem_cons.mp hb with rfl | hb2
        · rw [hra] at hrb
          injection hrb with hinj
          subst hinj
          exact absurd hxb hxa
        · exact ⟨b, hb2, rb, hrb, hxb⟩
      obtain ⟨b, hb, rb, hrb, hxb, heq⟩ :=
        ih (fun x hx => hpos x (List.mem_cons_of_mem a hx))
          (fun x hx => hkey x (List.mem_cons_of_mem a hx)) hex2
      refine ⟨b, List.mem_cons_of_mem a hb, rb, hrb, hxb, ?_⟩
      simp only [validateAllocations, if_neg (not_le.mpr hpa), hra, if_neg hxa]
      exact heq

/-- C3: whenever some allocation of a receipt-group recording request
exceeds the remaining balance reported by the balance query for its
invoice by more than the 0.0001 epsilon (the other allocations being
positive and resolved), the entire batch is rejected with the error
naming that invoice (serie and numar) and its remaining balance, and the
collections store is unchanged — no row of the batch is inserted. -/
theorem record_collection_group_rejects_over_allocation :
    ∀ (carnet : Option String) (cbs : List BalanceRow)
      (invs : List (InvoiceRow × List ItemRow)) (cols : List CollectionRow)
      (pidReq : String) (allocs : List AllocationRequest)
      (receiptSeries receiptNumber rgid : String) (idOf : Nat → String),
      trimString pidReq ≠ "" →
      (∀ a ∈ allocs, 0 < a.valoare) →
      (∀ a ∈ allocs, ∃ r, mapLookup (remainingMapOf carnet cbs invs cols (trimString pidReq))
          (build_invoice_key (trimString pidReq) a.serieFactura a.numarFactura a.codDocument)
            = some r) →
      (∃ a ∈ allocs, ∃ r, mapLookup (remainingMapOf carnet cbs invs cols (trimString pidReq))
          (build_invoice_key (trimString pidReq) a.serieFactura a.numarFactura a.codDocument)
            = some r ∧ a.valoare - r > 1/10000) →
      ∃ a ∈ allocs, ∃ r,
        mapLookup (remainingMapOf carnet cbs invs cols (trimString pidReq))
          (build_invoice_key (trimString pidReq) a.serieFactura a.numarFactura a.codDocument)
            = some r
        ∧ a.valoare - r > 1/10000
        ∧ record_collection_group carnet cbs invs cols pidReq allocs
            receiptSeries receiptNumber rgid idOf
          = GroupOutcome.mk cols
              (.err (.exceedsRemaining r (a.serieFactura.getD "") (a.numarFactura.getD ""))) := by
  intro carnet cbs invs cols pidReq allocs receiptSeries receiptNumber rgid idOf
    hpid hpos hkey hex
  obtain ⟨a, ha, r, hr, hx, heq⟩ :=
    validateAllocations_exceeds (remainingMapOf carnet cbs invs cols (trimString pidReq))
      (trimString pidReq) allocs hpos hkey hex
  refine ⟨a, ha, r, hr, hx, ?_⟩
  have hpidb : (trimString pidReq == "") = false := by
    simpa using hpid
  have hne2 : allocs.isEmpty = false :=
    isEmpty_false_of_ne_nil (List.ne_nil_of_mem ha)
  simp [record_collection_group, hpidb, hne2, heq]

/-- Witness for C3: Scenario C — remaining 60 for invoice FV 100 (remote
rest 100, one pending collection of 40); a 70 allocation is rejected with
the error naming the invoice and its remaining 60, the store unchanged. -/
theorem record_collection_group_rejects_over_allocation_witness :
    (trimString "P1" ≠ "")
    ∧ (∃ a ∈ [AllocationRequest.mk (some "FV") (some "100") (some "X") 70], ∃ r,
        mapLookup
          (remainingMapOf none
            [BalanceRow.mk "P1" (some "FV") (some "100") (some "X") (some 100) (some 100)]
            []
            [CollectionRow.mk "c1" (some "g1") (some "CH") (some "7") "P1"
              (some "100") (some "FV") (some "X") 40 .pending]
            (trimString "P1"))
          (build_invoice_key (trimString "P1") a.serieFactura a.numarFactura a.codDocument)
            = some r
        ∧ a.valoare - r > 1/10000
        ∧ record_collection_group none
            [BalanceRow.mk "P1" (some "FV") (some "100") (some "X") (some 100) (some 100)]
            []
            [CollectionRow.mk "c1" (some "g1") (some "CH") (some "7") "P1"
              (some "100") (some "FV") (some "X") 40 .pending]
            "P1" [AllocationRequest.mk (some "FV") (some "100") (some "X") 70]
            "CH" "8" "g2" (fun _ => "n")
          = GroupOutcome.mk
              [CollectionRow.mk "c1" (some "g1") (some "CH") (some "7") "P1"
                (some "100") (some "FV") (some "X") 40 .pending]
              (.err (.exceedsRemaining r (a.serieFactura.getD "") (a.numarFactura.getD "")))) := by
  have ht1 : trimString "P1" = "P1" := by decide
  have ht2 : trimString "FV" = "FV" := by decide
  have ht3 : trimString "100" = "100" := by decide
  have ht4 : trimString "X" = "X" := by decide
  have hk : build_invoice_key (trimString "P1") (some "FV") (some "100") (some "X")
      = "P1|FV|100|X" := by decide
  have hmap : remainingMapOf none
      [BalanceRow.mk "P1" (some "FV") (some "100") (some "X") (some 100) (some 100)]
      []
      [CollectionRow.mk "c1" (some "g1") (some "CH") (some "7") "P1"
        (some "100") (some "FV") (some "X") 40 .pending]
      (trimString "P1") = [("P1|FV|100|X", 60)] := by
    rw [ht1]
    norm_num [remainingMapOf, get_client_balances, remoteOut, remoteEffectiveRest,
      collectedForRemote, inFlight, build_invoice_key, normalizeOptKey,
      ht1, ht2, ht3, ht4]
    decide
  have hlook : mapLookup
      (remainingMapOf none
        [BalanceRow.mk "P1" (some "FV") (some "100") (some "X") (some 100) (some 100)]
        []
        [CollectionRow.mk "c1" (some "g1") (some "CH") (some "7") "P1"
          (some "100") (some "FV") (some "X") 40 .pending]
        (trimString "P1"))
      (build_invoice_key (trimString "P1") (some "FV") (some "100") (some "X"))
      = some 60 := by
    rw [hmap, hk]
    norm_num [mapLookup]
  refine ⟨by decide, ?_⟩
  exact record_collection_group_rejects_over_allocation none
    [BalanceRow.mk "P1" (some "FV") (some "100") (some "X") (some 100) (some 100)]
    []
    [CollectionRow.mk "c1" (some "g1") (some "CH") (some "7") "P1"
      (some "100") (some "FV") (some "X") 40 .pending]
    "P1" [AllocationRequest.mk (some "FV") (some "100") (some "X") 70]
    "CH" "8" "g2" (fun _ => "n")
    (by decide)
    (by intro a ha
        rw [List.mem_singleton] at ha
        subst ha
        norm_num)
    (by intro a ha
        rw [List.mem_singleton] at ha
        subst ha
        exact ⟨60, hlook⟩)
    ⟨AllocationRequest.mk (some "FV") (some "100") (some "X") 70,
     List.mem_singleton_self _, 60, hlook, by norm_num⟩
